import Mathlib

/-!
Verification of `src/backend/server.py` from the eal-word-builder repository.

The program is a small development HTTP server: a handler class
`CustomHTTPRequestHandler` extending `http.server.SimpleHTTPRequestHandler`
with CORS headers and an `OPTIONS` short-circuit, plus a `__main__` block that
changes into the script's directory, binds a TCP server, tries to open a
browser, and serves until a keyboard interrupt.

The embedding models the header-buffering discipline of Python's
`BaseHTTPRequestHandler`: `send_response` / `send_header` append to an
in-memory buffer, and `end_headers` terminates the header block by flushing
the buffered status line and headers onto the wire.  A `Conn` value records
the buffer and everything flushed so far.
-/

/-- File contents as a list of byte values. -/
abbrev Bytes := List Nat

/-- `PORT = 8000` in server.py. -/
def PORT : Nat := 8000

/-- Connection state of one request/response exchange.
`status` and `buffer` hold the not-yet-flushed status line and headers;
`blocks` holds the header blocks already terminated (flushed to the wire),
each a status code paired with its header list; `body` holds body bytes
written after the headers. -/
structure Conn where
  status : Option Nat
  buffer : List (String × String)
  blocks : List (Nat × List (String × String))
  body : Bytes
deriving DecidableEq, Repr

/-- A fresh connection: nothing buffered, nothing on the wire. -/
def conn0 : Conn := ⟨none, [], [], []⟩

namespace BaseHTTPRequestHandler

/-- Modelled from `http.server.BaseHTTPRequestHandler.send_header`:
append one header to the internal header buffer. -/
def send_header (c : Conn) (k v : String) : Conn :=
  { c with buffer := c.buffer ++ [(k, v)] }

/-- Modelled from `BaseHTTPRequestHandler.send_response_only`:
buffer the status line. -/
def send_response_only (c : Conn) (code : Nat) : Conn :=
  { c with status := some code }

/-- Modelled from `BaseHTTPRequestHandler.send_response`: buffer the status
line, then a `Server` and a `Date` header (their values are fixed
placeholders here; only their presence matters to the claims). -/
def send_response (c : Conn) (code : Nat) : Conn :=
  send_header (send_header (send_response_only c code) "Server" "SimpleHTTP")
    "Date" "DATE"

/-- Modelled from `BaseHTTPRequestHandler.end_headers`: terminate the header
block, flushing the buffered status line and headers to the wire. -/
def end_headers (c : Conn) : Conn :=
  { c with status := none, buffer := [],
           blocks := c.blocks ++ [(c.status.getD 0, c.buffer)] }

end BaseHTTPRequestHandler

namespace CustomHTTPRequestHandler

/-- From server.py lines 17-22: the override adds the three CORS headers to
the buffer and then calls `super().end_headers()`, which terminates the
header block. -/
def end_headers (c : Conn) : Conn :=
  BaseHTTPRequestHandler.end_headers
    (BaseHTTPRequestHandler.send_header
      (BaseHTTPRequestHandler.send_header
        (BaseHTTPRequestHandler.send_header c
          "Access-Control-Allow-Origin" "*")
        "Access-Control-Allow-Methods" "GET, POST, OPTIONS")
      "Access-Control-Allow-Headers" "Content-Type")

/-- From server.py lines 24-26: `do_OPTIONS` sends status 200 and ends the
headers; no body is written and the filesystem is never consulted. -/
def do_OPTIONS (c : Conn) : Conn :=
  end_headers (BaseHTTPRequestHandler.send_response c 200)

end CustomHTTPRequestHandler

/-- The header-completion step as the spec describes it: FIRST call through to
the base header-completion logic, THEN append the three CORS headers.  This
definition follows the spec's words, for comparison with
`CustomHTTPRequestHandler.end_headers`, which is translated from the code. -/
def specOrderEndHeaders (c : Conn) : Conn :=
  BaseHTTPRequestHandler.send_header
    (BaseHTTPRequestHandler.send_header
      (BaseHTTPRequestHandler.send_header (BaseHTTPRequestHandler.end_headers c)
        "Access-Control-Allow-Origin" "*")
      "Access-Control-Allow-Methods" "GET, POST, OPTIONS")
    "Access-Control-Allow-Headers" "Content-Type"

/-- Process-level state relevant to file serving: the current working
directory, against which `SimpleHTTPRequestHandler` resolves request paths. -/
structure ProcState where
  cwd : String
deriving DecidableEq, Repr

/-- The filesystem, abstractly: maps an absolute file name to its contents
when a regular file with that name exists. -/
abbrev FS := String → Option Bytes

/-- The directory containing server.py, i.e. `Path(__file__).parent`. -/
def scriptDir : String := "src/backend"

/-- From server.py line 30: `os.chdir(Path(__file__).parent)` - on startup the
working directory is set to the script's own directory, whatever it was. -/
def startup (p : ProcState) : ProcState := { p with cwd := scriptDir }

namespace CustomHTTPRequestHandler

/-- Modelled from `BaseHTTPRequestHandler.error_content_type` body generation:
a placeholder error page for the given code (its exact bytes are irrelevant to
the claims, only that it is not a served file's contents). -/
def errorBody (code : Nat) : Bytes := [code]

/-- Modelled from `BaseHTTPRequestHandler.send_error`: buffer the status line,
Connection / Content-Type / Content-Length headers, end the headers (through
the dynamic dispatch to the overridden `end_headers`), and write the error
page body. -/
def send_error (c : Conn) (code : Nat) : Conn :=
  let c1 := BaseHTTPRequestHandler.send_response c code
  let c2 := BaseHTTPRequestHandler.send_header c1 "Connection" "close"
  let c3 := BaseHTTPRequestHandler.send_header c2 "Content-Type"
    "text/html;charset=utf-8"
  let c4 := BaseHTTPRequestHandler.send_header c3 "Content-Length"
    (toString (errorBody code).length)
  let c5 := end_headers c4
  { c5 with body := c5.body ++ errorBody code }

/-- Modelled from `SimpleHTTPRequestHandler.guess_type`, reduced to the one
distinction the served assets need; only its presence as the Content-type
value matters to the claims. -/
def guess_type (path : String) : String :=
  if path.endsWith ".html" then "text/html" else "application/octet-stream"

/-- Modelled from `SimpleHTTPRequestHandler.send_head`, restricted to plain
files (directory redirects and conditional requests are outside the claims):
resolve the request path against the current working directory; if the file
exists, send a 200 status with Content-type and Content-Length and end the
headers, returning the file bytes to be copied; otherwise send a 404 error. -/
def send_head (fs : FS) (cwd path : String) (c : Conn) : Conn × Option Bytes :=
  match fs (cwd ++ path) with
  | some bytes =>
      let c1 := BaseHTTPRequestHandler.send_response c 200
      let c2 := BaseHTTPRequestHandler.send_header c1 "Content-type"
        (guess_type path)
      let c3 := BaseHTTPRequestHandler.send_header c2 "Content-Length"
        (toString bytes.length)
      (end_headers c3, some bytes)
  | none => (send_error c 404, none)

/-- Modelled from `SimpleHTTPRequestHandler.do_GET` (inherited by
`CustomHTTPRequestHandler`): `send_head`, then copy the file bytes to the
body. -/
def do_GET (fs : FS) (cwd path : String) (c : Conn) : Conn :=
  match send_head fs cwd path c with
  | (c1, some bytes) => { c1 with body := c1.body ++ bytes }
  | (c1, none) => c1

/-- Modelled from `SimpleHTTPRequestHandler.do_HEAD` (inherited): `send_head`
without copying the body. -/
def do_HEAD (fs : FS) (cwd path : String) (c : Conn) : Conn :=
  (send_head fs cwd path c).1

end CustomHTTPRequestHandler

/-- An incoming HTTP request: its method token and its path. -/
structure Request where
  method : String
  path : String
deriving DecidableEq, Repr

/-- Modelled from `BaseHTTPRequestHandler.handle_one_request` dispatch: the
method name selects the handler method `do_<METHOD>`; the class (with its
base) defines `do_OPTIONS`, `do_GET` and `do_HEAD`, and any other method gets
a 501 Unsupported-method error. -/
def handleRequest (fs : FS) (st : ProcState) (r : Request) : Conn :=
  if r.method = "OPTIONS" then CustomHTTPRequestHandler.do_OPTIONS conn0
  else if r.method = "GET" then
    CustomHTTPRequestHandler.do_GET fs st.cwd r.path conn0
  else if r.method = "HEAD" then
    CustomHTTPRequestHandler.do_HEAD fs st.cwd r.path conn0
  else CustomHTTPRequestHandler.send_error conn0 501

/-- The status code of the (first) flushed header block of a response. -/
def respStatus (c : Conn) : Nat := (c.blocks.headD (0, [])).1

/-- All header names appearing in the response's flushed header blocks. -/
def headerKeys (c : Conn) : List String :=
  ((c.blocks.map Prod.snd).flatten).map Prod.fst

/-- How many times a header name occurs in the response's header block. -/
def headerCount (c : Conn) (name : String) : Nat :=
  (headerKeys c).count name

/-- Python exception kinds relevant to the `__main__` block: an operator
interrupt (`KeyboardInterrupt`), `SystemExit`, or any other exception. -/
inductive Exc where
  | keyboardInterrupt
  | systemExit
  | other (msg : String)
deriving DecidableEq, Repr

/-- From server.py line 49: the farewell message printed on interrupt. -/
def farewellMsg : String := "\n👋 Server stopped. Thanks for testing!"

/-- From server.py line 45: the fallback hint printed when the browser launch
fails.  The source writes it as a plain (non-f) string literal, so the brace
placeholder is literal text. -/
def fallbackMsg : String :=
  "💡 Manually open http://localhost:\x7bPORT\x7d/index.html in your browser"

/-- From server.py line 43: the message printed when the browser opens. -/
def browserOkMsg : String := "🌐 Opening game in your default browser..."

/-- What the fallback hint would read if the source had used an f-string
interpolating `PORT` (this definition follows the counterfactual, for
comparison with `fallbackMsg`, which is translated from the code). -/
def interpolatedFallback : String :=
  "💡 Manually open http://localhost:" ++ toString PORT ++
    "/index.html in your browser"

/-- From server.py lines 33-38: the startup banner, printed with f-strings
interpolating `PORT`. -/
def startupMsgs : List String :=
  ["🎮 Word Builder Game Server",
   "📍 Serving at: http://localhost:" ++ toString PORT,
   "🎯 Game URL: http://localhost:" ++ toString PORT ++ "/index.html",
   "👩‍🏫 Teacher Dashboard: http://localhost:" ++ toString PORT ++
     "/teacher.html",
   "⏹️  Press Ctrl+C to stop the server",
   ""]

/-- From server.py lines 41-45: the try/except around `webbrowser.open`.
The argument is the outcome of the browser-launch attempt.  The except clause
is bare, so EVERY exception outcome takes the fallback branch; either way
exactly one line is printed and execution continues. -/
def browserPhase (r : Except Exc Unit) : List String :=
  match r with
  | .ok _ => [browserOkMsg]
  | .error _ => [fallbackMsg]

/-- From server.py lines 47-50: the try/except around `serve_forever`.
`serve_forever` never returns normally, so its outcome is the exception that
ends it; `KeyboardInterrupt` is caught, a farewell is printed and control
falls off the end (a normal exit, carrying the final state); anything else
propagates. -/
def serveLoop (st : ProcState) (so : Exc) : List String × Except Exc ProcState :=
  match so with
  | .keyboardInterrupt => ([farewellMsg], .ok st)
  | e => ([], .error e)

/-- From server.py lines 28-50: the `__main__` block.  `start` is the process
state at launch (caller's working directory), `br` the outcome of the
browser-launch attempt, `so` the exception ending `serve_forever`.  Returns
everything printed, and either a normal exit with the final process state or
a propagated unhandled exception. -/
def mainFlow (start : ProcState) (br : Except Exc Unit) (so : Exc) :
    List String × Except Exc ProcState :=
  let st := startup start
  let res := serveLoop st so
  (startupMsgs ++ browserPhase br ++ res.1, res.2)

/-- The shape of an except clause in the source. -/
inductive HandlerClause where
  | bareExcept
  | onlyKeyboardInterrupt
deriving DecidableEq, Repr

/-- One try/except statement of the source. -/
structure TryBlock where
  site : String
  clause : HandlerClause
deriving DecidableEq, Repr

/-- The two try/except statements in server.py: the bare except around the
browser launch (lines 41-45) and the `except KeyboardInterrupt` around the
serve loop (lines 47-50).  These are all the explicit exception handlers in
the program. -/
def programHandlers : List TryBlock :=
  [⟨"browser-launch", .bareExcept⟩, ⟨"serve-loop", .onlyKeyboardInterrupt⟩]

/-- Whether a try/except clause catches any non-interrupt exception. -/
def handlerCatchesNonInterrupt (t : TryBlock) : Bool :=
  match t.clause with
  | .bareExcept => true
  | .onlyKeyboardInterrupt => false

/-- Whether `hay` begins with `needle`. -/
def leadsWith : List Char → List Char → Bool
  | [], _ => true
  | _ :: _, [] => false
  | a :: as, b :: bs => a == b && leadsWith as bs

/-- Whether `needle` occurs contiguously inside `hay`. -/
def hasInfix (needle : List Char) : List Char → Bool
  | [] => leadsWith needle []
  | b :: bs => leadsWith needle (b :: bs) || hasInfix needle bs

/-- A filesystem with one file, `src/backend/index.html`, holding bytes
`[104, 105]`; used to instantiate the universally quantified theorems. -/
def fsW : FS := fun q =>
  if q = "src/backend/index.html" then some [104, 105] else none

/-- C1: every response the server produces - success, error, and OPTIONS
responses alike - carries each of the three CORS headers
`Access-Control-Allow-Origin`, `Access-Control-Allow-Methods` and
`Access-Control-Allow-Headers` exactly once in its header block. -/
theorem cors_headers_once (fs : FS) (st : ProcState) (r : Request) :
    headerCount (handleRequest fs st r) "Access-Control-Allow-Origin" = 1 ∧
    headerCount (handleRequest fs st r) "Access-Control-Allow-Methods" = 1 ∧
    headerCount (handleRequest fs st r) "Access-Control-Allow-Headers" = 1 := by
  unfold handleRequest
  split
  · exact ⟨rfl, rfl, rfl⟩
  split
  · cases h : fs (st.cwd ++ r.path) with
    | none =>
        have e : CustomHTTPRequestHandler.do_GET fs st.cwd r.path conn0 =
            CustomHTTPRequestHandler.send_error conn0 404 := by
          unfold CustomHTTPRequestHandler.do_GET
            CustomHTTPRequestHandler.send_head
          rw [h]
        rw [e]; exact ⟨rfl, rfl, rfl⟩
    | some bs =>
        refine ⟨?_, ?_, ?_⟩ <;>
          (unfold CustomHTTPRequestHandler.do_GET
             CustomHTTPRequestHandler.send_head
           rw [h]
           rfl)
  split
  · cases h : fs (st.cwd ++ r.path) with
    | none =>
        have e : CustomHTTPRequestHandler.do_HEAD fs st.cwd r.path conn0 =
            CustomHTTPRequestHandler.send_error conn0 404 := by
          unfold CustomHTTPRequestHandler.do_HEAD
            CustomHTTPRequestHandler.send_head
          rw [h]
        rw [e]; exact ⟨rfl, rfl, rfl⟩
    | some bs =>
        refine ⟨?_, ?_, ?_⟩ <;>
          (unfold CustomHTTPRequestHandler.do_HEAD
             CustomHTTPRequestHandler.send_head
           rw [h]
           rfl)
  · exact ⟨rfl, rfl, rfl⟩

/-- C2: an OPTIONS request to any path gets status 200 with an empty body,
and the response does not depend on the filesystem, the working directory or
the path - no file resolution is performed. -/
theorem options_short_circuit (fs fs' : FS) (st st' : ProcState)
    (p p' : String) :
    respStatus (handleRequest fs st ⟨"OPTIONS", p⟩) = 200 ∧
    (handleRequest fs st ⟨"OPTIONS", p⟩).body = [] ∧
    handleRequest fs st ⟨"OPTIONS", p⟩ = handleRequest fs' st' ⟨"OPTIONS", p'⟩ :=
  ⟨rfl, rfl, rfl⟩

/-- C3 (amended): the override appends the three CORS headers to the already
buffered headers and THEN calls through to the base header-completion logic,
which terminates the header block; previously set status line and headers are
preserved, with the CORS headers appended after them inside the terminated
block. -/
theorem end_headers_decorate_then_delegate (c : Conn) :
    CustomHTTPRequestHandler.end_headers c =
      BaseHTTPRequestHandler.end_headers { c with buffer := c.buffer ++
        [("Access-Control-Allow-Origin", "*"),
         ("Access-Control-Allow-Methods", "GET, POST, OPTIONS"),
         ("Access-Control-Allow-Headers", "Content-Type")] } ∧
    (CustomHTTPRequestHandler.end_headers c).blocks =
      c.blocks ++ [(c.status.getD 0, c.buffer ++
        [("Access-Control-Allow-Origin", "*"),
         ("Access-Control-Allow-Methods", "GET, POST, OPTIONS"),
         ("Access-Control-Allow-Headers", "Content-Type")])] := by
  constructor <;>
    simp [CustomHTTPRequestHandler.end_headers,
      BaseHTTPRequestHandler.end_headers, BaseHTTPRequestHandler.send_header]

/-- A connection as it stands when `end_headers` is reached for a typical
response: a 200 status line with Server, Date and Content-Length buffered. -/
def connEx : Conn :=
  BaseHTTPRequestHandler.send_header
    (BaseHTTPRequestHandler.send_response conn0 200) "Content-Length" "5"

/-- C3 (counterexample): the claimed order - call through to the base
header-completion logic first, then append the CORS headers - does not match
the code; performed in that order on a concrete connection, the CORS headers
would land after the block terminator and so be absent from the flushed
header block, while the code's override puts each of them in the block. -/
theorem end_headers_spec_order_refuted :
    specOrderEndHeaders connEx ≠ CustomHTTPRequestHandler.end_headers connEx ∧
    headerCount (specOrderEndHeaders connEx) "Access-Control-Allow-Origin" = 0 ∧
    headerCount (CustomHTTPRequestHandler.end_headers connEx)
      "Access-Control-Allow-Origin" = 1 := by decide

/-- C4: a GET request whose path resolves to an existing file under the
serving root gets status 200 with body exactly the file's bytes. -/
theorem get_existing_file (fs : FS) (st : ProcState) (p : String) (bs : Bytes)
    (h : fs (st.cwd ++ p) = some bs) :
    respStatus (handleRequest fs st ⟨"GET", p⟩) = 200 ∧
    (handleRequest fs st ⟨"GET", p⟩).body = bs := by
  have e : handleRequest fs st ⟨"GET", p⟩ =
      CustomHTTPRequestHandler.do_GET fs st.cwd p conn0 := rfl
  rw [e]
  unfold CustomHTTPRequestHandler.do_GET CustomHTTPRequestHandler.send_head
  rw [h]
  exact ⟨rfl, rfl⟩

/-- C4 witness: on a one-file filesystem, GET of that file returns 200 and
the file's bytes. -/
theorem get_existing_file_witness :
    respStatus (handleRequest fsW ⟨"src/backend"⟩ ⟨"GET", "/index.html"⟩) =
      200 ∧
    (handleRequest fsW ⟨"src/backend"⟩ ⟨"GET", "/index.html"⟩).body =
      [104, 105] :=
  get_existing_file fsW ⟨"src/backend"⟩ "/index.html" [104, 105] (by decide)

/-- C5 (amended): a POST request does NOT fall through to static-file
resolution: the base dispatcher finds no POST handler and rejects it with a
501 Unsupported-method error, independent of the filesystem, the working
directory and the path. -/
theorem post_unsupported_method (fs fs' : FS) (st st' : ProcState)
    (p p' : String) :
    respStatus (handleRequest fs st ⟨"POST", p⟩) = 501 ∧
    handleRequest fs st ⟨"POST", p⟩ = handleRequest fs' st' ⟨"POST", p'⟩ :=
  ⟨rfl, rfl⟩

/-- C5 (counterexample): on a filesystem where the request path maps to an
existing file, a POST to that path yields status 501 - neither the file's
contents with a 200, nor a not-found/forbidden response. -/
theorem post_falls_through_refuted :
    fsW ("src/backend" ++ "/index.html") = some [104, 105] ∧
    respStatus (handleRequest fsW ⟨"src/backend"⟩ ⟨"POST", "/index.html"⟩) =
      501 ∧
    (handleRequest fsW ⟨"src/backend"⟩ ⟨"POST", "/index.html"⟩).body ≠
      [104, 105] := by decide

/-- C6: two runs differing only in the caller's working directory at launch
serve identically - `startup` overwrites the working directory with the
script's own directory, so every request gets the same response. -/
theorem serving_independent_of_launch_cwd (fs : FS) (p1 p2 : ProcState)
    (r : Request) :
    handleRequest fs (startup p1) r = handleRequest fs (startup p2) r ∧
    (startup p1).cwd = scriptDir := by
  cases p1; cases p2; exact ⟨rfl, rfl⟩

/-- C7: when the serve loop ends with an operator interrupt, the run exits
normally (no propagated exception) and the farewell message is among the
printed lines; any other exception ending the serve loop propagates as an
unhandled failure. -/
theorem interrupt_clean_shutdown (st : ProcState) (br : Except Exc Unit)
    (e : Exc) (h : e ≠ Exc.keyboardInterrupt) :
    (mainFlow st br .keyboardInterrupt).2 = .ok (startup st) ∧
    farewellMsg ∈ (mainFlow st br .keyboardInterrupt).1 ∧
    (mainFlow st br e).2 = .error e := by
  refine ⟨rfl, ?_, ?_⟩
  · simp [mainFlow, serveLoop]
  · cases e with
    | keyboardInterrupt => exact absurd rfl h
    | systemExit => rfl
    | other m => rfl

/-- C7 witness: a concrete run interrupted from the keyboard exits normally
and prints the farewell, while a run ended by an OSError propagates it. -/
theorem interrupt_clean_shutdown_witness :
    (mainFlow ⟨"/tmp"⟩ (.ok ()) .keyboardInterrupt).2 = .ok (startup ⟨"/tmp"⟩) ∧
    farewellMsg ∈ (mainFlow ⟨"/tmp"⟩ (.ok ()) .keyboardInterrupt).1 ∧
    (mainFlow ⟨"/tmp"⟩ (.ok ()) (.other "OSError")).2 =
      .error (.other "OSError") :=
  interrupt_clean_shutdown ⟨"/tmp"⟩ (.ok ()) (.other "OSError") (by decide)

/-- C8: whatever exception the browser-launch attempt raises, it is caught
and suppressed: the fallback hint is printed, the run still reaches the serve
loop (its outcome equals that of a run whose browser launch succeeded, and an
interrupted run still exits normally), and the browser-launch handler is the
only handler in the program that catches a non-interrupt exception. -/
theorem browser_failure_suppressed (st : ProcState) (e : Exc) :
    fallbackMsg ∈ (mainFlow st (.error e) .keyboardInterrupt).1 ∧
    (mainFlow st (.error e) .keyboardInterrupt).2 = .ok (startup st) ∧
    (∀ so, (mainFlow st (.error e) so).2 = (mainFlow st (.ok ()) so).2) ∧
    programHandlers.filter handlerCatchesNonInterrupt =
      [⟨"browser-launch", .bareExcept⟩] := by
  refine ⟨?_, rfl, fun so => rfl, rfl⟩
  simp [mainFlow, browserPhase, serveLoop]

/-- C9: the fallback hint is printed from a plain (non-f) string literal, so
it contains the literal placeholder `{PORT}` rather than the digits of the
actual port 8000; it differs from the URL an interpolating f-string would
have produced. -/
theorem fallback_has_literal_placeholder :
    hasInfix "\x7bPORT\x7d".toList fallbackMsg.toList = true ∧
    hasInfix (toString PORT).toList fallbackMsg.toList = false ∧
    fallbackMsg ≠ interpolatedFallback := by decide

/-- C10: the except clause around the browser launch is bare: every exception
outcome - a keyboard interrupt or a system exit included - takes the fallback
branch, prints the hint, and the run proceeds into the serve loop exactly as
if the launch had succeeded. -/
theorem bare_except_catches_interrupts (st : ProcState) (so : Exc) :
    (∀ e, browserPhase (.error e) = [fallbackMsg]) ∧
    browserPhase (.error .keyboardInterrupt) = [fallbackMsg] ∧
    browserPhase (.error .systemExit) = [fallbackMsg] ∧
    fallbackMsg ∈ (mainFlow st (.error .keyboardInterrupt) so).1 ∧
    (mainFlow st (.error .keyboardInterrupt) so).2 =
      (mainFlow st (.ok ()) so).2 ∧
    (mainFlow st (.error .systemExit) .keyboardInterrupt).2 =
      .ok (startup st) := by
  refine ⟨fun e => rfl, rfl, rfl, ?_, rfl, rfl⟩
  simp [mainFlow, browserPhase, serveLoop]
